import Mathlib

/-!
Shallow embedding of `remote/mpmedia_mac.go` from spezifisch/stmp, the macOS
MediaPlayer bridge.  Side effects (player-control calls, native MediaPlayer
calls, log output, the write to the global recipient slot) are recorded as an
explicit trace of `Effect`s.  Go `nil` pointers and `nil` interface values are
modelled with `Option`.  C `double` payloads are modelled by `Rat`: the Go
code only passes them through unchanged (and converts an `int` duration), so
no floating-point rounding is observable at this boundary.
-/

namespace Remote

/-- Inbound OS command codes: the `Command` enum of `mpmediabridge.h`.  The
seven recognized codes are distinct constructors; any other value of the
integral C enum type falls into `UNKNOWN` (the `default` branch of the Go
switch). -/
inductive Command where
  | PLAY
  | PAUSE
  | STOP
  | TOGGLE
  | PREVIOUS_TRACK
  | NEXT_TRACK
  | SEEK
  | UNKNOWN (code : Int)
deriving DecidableEq

/-- One player-control invocation on the `ControlledPlayer` interface. -/
inductive PlayerCall where
  | play
  | pause
  | stop
  | nextTrack
  | previousTrack
  | seekAbsolute (seconds : Rat)
deriving DecidableEq

/-- The `ControlledPlayer` interface, abstracted by the outcome of each
control call (`none`: the Go call returned a nil error; `some e`: it returned
error `e`) together with the current playback position `GetTimePos`. -/
structure ControlledPlayer where
  Play : Option String
  Pause : Option String
  Stop : Option String
  NextTrack : Option String
  PreviousTrack : Option String
  SeekAbsolute : Rat → Option String
  GetTimePos : Rat

/-- The `logger.LoggerInterface` handle.  Log output itself is recorded in
the effect trace, so the handle only carries an identity. -/
structure LoggerInterface where
  id : Nat
deriving DecidableEq

/-- A non-nil `TrackInterface` value (at use sites the Go interface may also
be nil, which is modelled by `Option TrackInterface`). -/
structure TrackInterface where
  IsValid : Bool
  GetTitle : String
  GetArtist : String
  GetDuration : Int
deriving DecidableEq

/-- The `MPMediaHandler` struct: the player interface (a nil interface value
is `none`) and the logger. -/
structure MPMediaHandler where
  player : Option ControlledPlayer
  logger : LoggerInterface

/-- Calls into the native MediaPlayer layer declared in `mpmediabridge.h`.
Modelled from the spec: the header itself is not in the sources; per the
external-interface contract all of these return nothing and always accept. -/
inductive NativeCall where
  | register_os_remote_commands
  | set_os_playback_state_playing
  | set_os_playback_state_paused
  | set_os_playback_state_stopped
  | update_os_now_playing_info_position (seconds : Rat)
  | set_os_now_playing_info (title artist artURL : String) (duration : Rat)
deriving DecidableEq

/-- Log output: `logger.Print`, `logger.PrintError`, and the standard-library
`log.Printf` used for unknown commands. -/
inductive LogEntry where
  | print (msg : String)
  | printError (op : String) (err : String)
  | logPrintf (msg : String)
deriving DecidableEq

/-- One observable side effect of the bridge code. -/
inductive Effect where
  | playerCall (c : PlayerCall)
  | nativeCall (c : NativeCall)
  | log (e : LogEntry)
  | setRecipient (r : Option MPMediaHandler)

/-- The error-check pattern shared by all command handlers:
`if err := ...; err != nil { mp.logger.PrintError(op, err) }`. -/
def errLog (op : String) : Option String → List Effect
  | none => []
  | some e => [Effect.log (LogEntry.printError op e)]

/-- Method `OnCommandPause`: after the nil guards, `mp.player.Pause()`,
logging any error. -/
def OnCommandPause : Option MPMediaHandler → List Effect
  | none => []
  | some m =>
    match m.player with
    | none => []
    | some p => Effect.playerCall PlayerCall.pause :: errLog "Pause" p.Pause

/-- Method `OnCommandPlay`: after the nil guards, `mp.player.Play()`,
logging any error. -/
def OnCommandPlay : Option MPMediaHandler → List Effect
  | none => []
  | some m =>
    match m.player with
    | none => []
    | some p => Effect.playerCall PlayerCall.play :: errLog "Play" p.Play

/-- Method `OnCommandStop`: after the nil guards, `mp.player.Stop()`,
logging any error. -/
def OnCommandStop : Option MPMediaHandler → List Effect
  | none => []
  | some m =>
    match m.player with
    | none => []
    | some p => Effect.playerCall PlayerCall.stop :: errLog "Stop" p.Stop

/-- Method `OnCommandTogglePlayPause`: after the nil guards, the Go code
calls `mp.player.Pause()` (not a state-dependent toggle), logging any error
under the operation name "Pause". -/
def OnCommandTogglePlayPause : Option MPMediaHandler → List Effect
  | none => []
  | some m =>
    match m.player with
    | none => []
    | some p => Effect.playerCall PlayerCall.pause :: errLog "Pause" p.Pause

/-- Method `OnCommandNextTrack`: after the nil guards,
`mp.player.NextTrack()`, logging any error. -/
def OnCommandNextTrack : Option MPMediaHandler → List Effect
  | none => []
  | some m =>
    match m.player with
    | none => []
    | some p => Effect.playerCall PlayerCall.nextTrack :: errLog "NextTrack" p.NextTrack

/-- Method `OnCommandPreviousTrack`: after the nil guards,
`mp.player.PreviousTrack()`, logging any error. -/
def OnCommandPreviousTrack : Option MPMediaHandler → List Effect
  | none => []
  | some m =>
    match m.player with
    | none => []
    | some p =>
      Effect.playerCall PlayerCall.previousTrack :: errLog "PreviousTrack" p.PreviousTrack

/-- Method `OnCommandSeek`: after the nil guards,
`mp.player.SeekAbsolute(positionSeconds)`, logging any error. -/
def OnCommandSeek (mp : Option MPMediaHandler) (positionSeconds : Rat) : List Effect :=
  match mp with
  | none => []
  | some m =>
    match m.player with
    | none => []
    | some p =>
      Effect.playerCall (PlayerCall.seekAbsolute positionSeconds) ::
        errLog "SeekAbsolute" (p.SeekAbsolute positionSeconds)

/-- The exported callback `os_remote_command_callback(command, value)` that
Objective-C invokes; it dispatches on the command code through the
process-wide recipient slot (passed here explicitly as its current value). -/
def os_remote_command_callback (mpMediaEventRecipient : Option MPMediaHandler)
    (command : Command) (value : Rat) : List Effect :=
  match command with
  | Command.PLAY => OnCommandPlay mpMediaEventRecipient
  | Command.PAUSE => OnCommandPause mpMediaEventRecipient
  | Command.STOP => OnCommandStop mpMediaEventRecipient
  | Command.TOGGLE => OnCommandTogglePlayPause mpMediaEventRecipient
  | Command.PREVIOUS_TRACK => OnCommandPreviousTrack mpMediaEventRecipient
  | Command.NEXT_TRACK => OnCommandNextTrack mpMediaEventRecipient
  | Command.SEEK => OnCommandSeek mpMediaEventRecipient value
  | Command.UNKNOWN code =>
      [Effect.log (LogEntry.logPrintf ("unknown OS command received: " ++ toString code))]

/-- The hard-coded artwork URL substituted because no cover-art source
exists. -/
def coverArtPlaceholder : String :=
  "https://support.apple.com/library/content/dam/edam/applecare/images/en_US/osx/mac-apple-logo-screen-icon.png"

/-- Method `updateMetadata`: resolve title, artist and duration from the
track when it is non-nil and valid (else keep the Go zero values), then make
the single native call publishing all four fields, with the placeholder
artwork URL and the duration converted to a C double. -/
def updateMetadata (track : Option TrackInterface) : List Effect :=
  let resolved : String × String × Int :=
    match track with
    | some t =>
      if t.IsValid then (t.GetTitle, t.GetArtist, t.GetDuration) else ("", "", 0)
    | none => ("", "", 0)
  [Effect.nativeCall
    (NativeCall.set_os_now_playing_info resolved.1 resolved.2.1
      coverArtPlaceholder (resolved.2.2 : Rat))]

/-- The outcome of a `RegisterMPMediaHandler` call: its Go `error` return
value, the resulting value of the global slot `mpMediaEventRecipient`, the
effects performed during the call itself (in order), and the trace each
attached listener closure produces when the player later fires its event. -/
structure Registration where
  error : Option String
  mpMediaEventRecipient : Option MPMediaHandler
  callEffects : List Effect
  onSongChange : Option TrackInterface → List Effect
  onStopped : List Effect
  onSeek : List Effect
  onPlaying : List Effect
  onPaused : List Effect

/-- `RegisterMPMediaHandler(player, logger_)`.  The previous value of the
global recipient slot is threaded explicitly as `prev`; the Go code never
reads it and overwrites it unconditionally before calling
`C.register_os_remote_commands()`, then attaches the five listener closures
and returns nil. -/
def RegisterMPMediaHandler (prev : Option MPMediaHandler)
    (player : ControlledPlayer) (logger_ : LoggerInterface) : Registration :=
  let mp : MPMediaHandler := { player := some player, logger := logger_ }
  { error := none
    mpMediaEventRecipient := some mp
    callEffects := [Effect.setRecipient (some mp),
                    Effect.nativeCall NativeCall.register_os_remote_commands]
    onSongChange := fun track =>
      Effect.log (LogEntry.print "OnSongChange") :: updateMetadata track
    onStopped := [Effect.log (LogEntry.print "OnStopped"),
                  Effect.nativeCall NativeCall.set_os_playback_state_stopped]
    onSeek := [Effect.log (LogEntry.print "OnSeek"),
               Effect.nativeCall
                 (NativeCall.update_os_now_playing_info_position player.GetTimePos)]
    onPlaying := [Effect.log (LogEntry.print "OnPlaying"),
                  Effect.nativeCall NativeCall.set_os_playback_state_playing,
                  Effect.nativeCall
                    (NativeCall.update_os_now_playing_info_position player.GetTimePos)]
    onPaused := [Effect.log (LogEntry.print "OnPaused"),
                 Effect.nativeCall NativeCall.set_os_playback_state_paused,
                 Effect.nativeCall
                   (NativeCall.update_os_now_playing_info_position player.GetTimePos)] }

/-- Projection of a trace onto the player-control calls it contains. -/
def playerCalls (es : List Effect) : List PlayerCall :=
  es.filterMap fun e =>
    match e with
    | Effect.playerCall c => some c
    | _ => none

/-- Projection of a trace onto the native MediaPlayer calls it contains. -/
def nativeCalls (es : List Effect) : List NativeCall :=
  es.filterMap fun e =>
    match e with
    | Effect.nativeCall c => some c
    | _ => none

/-- Projection of a trace onto the log entries it contains. -/
def logEntries (es : List Effect) : List LogEntry :=
  es.filterMap fun e =>
    match e with
    | Effect.log l => some l
    | _ => none

/-- Projection of a trace onto the writes to the recipient slot. -/
def recipientWrites (es : List Effect) : List (Option MPMediaHandler) :=
  es.filterMap fun e =>
    match e with
    | Effect.setRecipient r => some r
    | _ => none

/-- Whether a native call sets the playback state. -/
def isStateSetter : NativeCall → Bool
  | NativeCall.set_os_playback_state_playing => true
  | NativeCall.set_os_playback_state_paused => true
  | NativeCall.set_os_playback_state_stopped => true
  | _ => false

theorem playerCalls_errLog (op : String) (r : Option String) :
    playerCalls (errLog op r) = [] := by
  cases r <;> rfl

theorem logEntries_errLog (op : String) (r : Option String) :
    logEntries (errLog op r) =
      (match r with
       | none => []
       | some e => [LogEntry.printError op e]) := by
  cases r <;> rfl

theorem errLog_length_le (op : String) (r : Option String) :
    (errLog op r).length ≤ 1 := by
  cases r <;> simp [errLog]

/-- Claim C1: with a registered handler holding a player, every recognized
inbound command code delivered to the native callback produces exactly one
player-control invocation: PLAY invokes Play, PAUSE invokes Pause, STOP
invokes Stop, TOGGLE invokes Pause regardless of any playback state,
PREVIOUS_TRACK invokes PreviousTrack, NEXT_TRACK invokes NextTrack, and SEEK
invokes SeekAbsolute with the numeric payload passed through unchanged as
seconds. -/
theorem command_dispatch_exactly_one_call (p : ControlledPlayer)
    (lg : LoggerInterface) (v : Rat) :
    playerCalls (os_remote_command_callback (some ⟨some p, lg⟩) Command.PLAY v)
      = [PlayerCall.play] ∧
    playerCalls (os_remote_command_callback (some ⟨some p, lg⟩) Command.PAUSE v)
      = [PlayerCall.pause] ∧
    playerCalls (os_remote_command_callback (some ⟨some p, lg⟩) Command.STOP v)
      = [PlayerCall.stop] ∧
    playerCalls (os_remote_command_callback (some ⟨some p, lg⟩) Command.TOGGLE v)
      = [PlayerCall.pause] ∧
    playerCalls (os_remote_command_callback (some ⟨some p, lg⟩) Command.PREVIOUS_TRACK v)
      = [PlayerCall.previousTrack] ∧
    playerCalls (os_remote_command_callback (some ⟨some p, lg⟩) Command.NEXT_TRACK v)
      = [PlayerCall.nextTrack] ∧
    playerCalls (os_remote_command_callback (some ⟨some p, lg⟩) Command.SEEK v)
      = [PlayerCall.seekAbsolute v] := by
  refine ⟨?_, ?_, ?_, ?_, ?_, ?_, ?_⟩
  · cases h : p.Play <;>
      simp [os_remote_command_callback, OnCommandPlay, errLog, playerCalls, h]
  · cases h : p.Pause <;>
      simp [os_remote_command_callback, OnCommandPause, errLog, playerCalls, h]
  · cases h : p.Stop <;>
      simp [os_remote_command_callback, OnCommandStop, errLog, playerCalls, h]
  · cases h : p.Pause <;>
      simp [os_remote_command_callback, OnCommandTogglePlayPause, errLog, playerCalls, h]
  · cases h : p.PreviousTrack <;>
      simp [os_remote_command_callback, OnCommandPreviousTrack, errLog, playerCalls, h]
  · cases h : p.NextTrack <;>
      simp [os_remote_command_callback, OnCommandNextTrack, errLog, playerCalls, h]
  · cases h : p.SeekAbsolute v <;>
      simp [os_remote_command_callback, OnCommandSeek, errLog, playerCalls, h]

/-- Claim C2: every published metadata record is fully resolved with all four
fields.  For a non-nil valid track, title, artist and duration come from the
track and the artwork field is the fixed placeholder, not derived from the
track; for an invalid or absent track the record is
("", "", placeholder, 0). -/
theorem metadata_fully_resolved (t : TrackInterface) (ht : t.IsValid = true)
    (u : TrackInterface) (hu : u.IsValid = false) :
    updateMetadata (some t)
      = [Effect.nativeCall (NativeCall.set_os_now_playing_info
          t.GetTitle t.GetArtist coverArtPlaceholder (t.GetDuration : Rat))] ∧
    updateMetadata (some u)
      = [Effect.nativeCall (NativeCall.set_os_now_playing_info
          "" "" coverArtPlaceholder 0)] ∧
    updateMetadata none
      = [Effect.nativeCall (NativeCall.set_os_now_playing_info
          "" "" coverArtPlaceholder 0)] := by
  refine ⟨?_, ?_, ?_⟩ <;> simp [updateMetadata, ht, hu]

theorem metadata_fully_resolved_witness :
    updateMetadata (some ⟨true, "A", "B", 180⟩)
      = [Effect.nativeCall (NativeCall.set_os_now_playing_info
          "A" "B" coverArtPlaceholder ((180 : Int) : Rat))] ∧
    updateMetadata (some ⟨false, "X", "Y", 5⟩)
      = [Effect.nativeCall (NativeCall.set_os_now_playing_info
          "" "" coverArtPlaceholder 0)] ∧
    updateMetadata none
      = [Effect.nativeCall (NativeCall.set_os_now_playing_info
          "" "" coverArtPlaceholder 0)] :=
  metadata_fully_resolved ⟨true, "A", "B", 180⟩ rfl ⟨false, "X", "Y", 5⟩ rfl

/-- Claim C3: the Playing and Paused listeners each push a native state
update and then the current player position, in that order; the Stopped
listener pushes only the state update and no position. -/
theorem playing_paused_push_state_then_position (prev : Option MPMediaHandler)
    (p : ControlledPlayer) (lg : LoggerInterface) :
    nativeCalls (RegisterMPMediaHandler prev p lg).onPlaying
      = [NativeCall.set_os_playback_state_playing,
         NativeCall.update_os_now_playing_info_position p.GetTimePos] ∧
    nativeCalls (RegisterMPMediaHandler prev p lg).onPaused
      = [NativeCall.set_os_playback_state_paused,
         NativeCall.update_os_now_playing_info_position p.GetTimePos] ∧
    nativeCalls (RegisterMPMediaHandler prev p lg).onStopped
      = [NativeCall.set_os_playback_state_stopped] :=
  ⟨rfl, rfl, rfl⟩

/-- Claim C4: an inbound command code outside the recognized set produces
zero player-control invocations and exactly one log entry, and the whole
trace is just that log entry (nothing is raised to the native layer),
whatever the current recipient is. -/
theorem unknown_command_ignored (r : Option MPMediaHandler) (code : Int) (v : Rat) :
    os_remote_command_callback r (Command.UNKNOWN code) v
      = [Effect.log (LogEntry.logPrintf ("unknown OS command received: " ++ toString code))] ∧
    playerCalls (os_remote_command_callback r (Command.UNKNOWN code) v) = [] ∧
    (logEntries (os_remote_command_callback r (Command.UNKNOWN code) v)).length = 1 :=
  ⟨rfl, rfl, rfl⟩

/-- Claim C5: with a registered handler holding a player, each recognized
command's handler logs exactly one PrintError entry carrying the operation
name when the player-control call fails, and produces no log entry when it
succeeds; in both cases the handler just returns a trace, so nothing is
re-raised to the native layer. -/
theorem player_error_logged_not_raised (p : ControlledPlayer)
    (lg : LoggerInterface) (v : Rat) :
    logEntries (os_remote_command_callback (some ⟨some p, lg⟩) Command.PLAY v)
      = (match p.Play with
         | none => []
         | some e => [LogEntry.printError "Play" e]) ∧
    logEntries (os_remote_command_callback (some ⟨some p, lg⟩) Command.PAUSE v)
      = (match p.Pause with
         | none => []
         | some e => [LogEntry.printError "Pause" e]) ∧
    logEntries (os_remote_command_callback (some ⟨some p, lg⟩) Command.STOP v)
      = (match p.Stop with
         | none => []
         | some e => [LogEntry.printError "Stop" e]) ∧
    logEntries (os_remote_command_callback (some ⟨some p, lg⟩) Command.TOGGLE v)
      = (match p.Pause with
         | none => []
         | some e => [LogEntry.printError "Pause" e]) ∧
    logEntries (os_remote_command_callback (some ⟨some p, lg⟩) Command.PREVIOUS_TRACK v)
      = (match p.PreviousTrack with
         | none => []
         | some e => [LogEntry.printError "PreviousTrack" e]) ∧
    logEntries (os_remote_command_callback (some ⟨some p, lg⟩) Command.NEXT_TRACK v)
      = (match p.NextTrack with
         | none => []
         | some e => [LogEntry.printError "NextTrack" e]) ∧
    logEntries (os_remote_command_callback (some ⟨some p, lg⟩) Command.SEEK v)
      = (match p.SeekAbsolute v with
         | none => []
         | some e => [LogEntry.printError "SeekAbsolute" e]) := by
  refine ⟨?_, ?_, ?_, ?_, ?_, ?_, ?_⟩
  · cases h : p.Play <;>
      simp [os_remote_command_callback, OnCommandPlay, errLog, logEntries, h]
  · cases h : p.Pause <;>
      simp [os_remote_command_callback, OnCommandPause, errLog, logEntries, h]
  · cases h : p.Stop <;>
      simp [os_remote_command_callback, OnCommandStop, errLog, logEntries, h]
  · cases h : p.Pause <;>
      simp [os_remote_command_callback, OnCommandTogglePlayPause, errLog, logEntries, h]
  · cases h : p.PreviousTrack <;>
      simp [os_remote_command_callback, OnCommandPreviousTrack, errLog, logEntries, h]
  · cases h : p.NextTrack <;>
      simp [os_remote_command_callback, OnCommandNextTrack, errLog, logEntries, h]
  · cases h : p.SeekAbsolute v <;>
      simp [os_remote_command_callback, OnCommandSeek, errLog, logEntries, h]

/-- Claim C6 counterexample: registration never propagates any error — at a
concrete player and logger (and empty prior slot), `RegisterMPMediaHandler`
returns a nil error, and its trace shows the result of the native
registration call is discarded, so a native-side refusal cannot reach the
caller. -/
theorem register_error_counterexample :
    (RegisterMPMediaHandler none
        ⟨none, none, none, none, none, fun _ => none, 0⟩ ⟨0⟩).error = none :=
  rfl

/-- Claim C6 amended: `RegisterMPMediaHandler` always returns a nil error;
the native registration call's outcome is ignored, so a native-side refusal
to register is not surfaced to the caller. -/
theorem register_always_returns_nil_error (prev : Option MPMediaHandler)
    (p : ControlledPlayer) (lg : LoggerInterface) :
    (RegisterMPMediaHandler prev p lg).error = none :=
  rfl

/-- Claim C7: the recipient slot is a single `Option` cell, so it holds at
most one live handler; a registration writes the slot exactly once, and
whatever the previous slot value was (including an earlier handler), the call
replaces it with the new handler and returns no error — silent replacement,
never a rejection. -/
theorem single_slot_silent_replacement (prev : Option MPMediaHandler)
    (p : ControlledPlayer) (lg : LoggerInterface) :
    (RegisterMPMediaHandler prev p lg).mpMediaEventRecipient = some ⟨some p, lg⟩ ∧
    (RegisterMPMediaHandler prev p lg).error = none ∧
    recipientWrites (RegisterMPMediaHandler prev p lg).callEffects
      = [some ⟨some p, lg⟩] :=
  ⟨rfl, rfl, rfl⟩

/-- Claim C8: the Seek listener pushes exactly the current player position to
the native layer and invokes no playback-state setter. -/
theorem seek_pushes_position_state_unchanged (prev : Option MPMediaHandler)
    (p : ControlledPlayer) (lg : LoggerInterface) :
    nativeCalls (RegisterMPMediaHandler prev p lg).onSeek
      = [NativeCall.update_os_now_playing_info_position p.GetTimePos] ∧
    (nativeCalls (RegisterMPMediaHandler prev p lg).onSeek).filter isStateSetter
      = [] :=
  ⟨rfl, rfl⟩

/-- Claim C9: no inbound command can crash the process.  Every entry point is
a total function here, and the guarded cases are exactly characterized: with
no registered recipient, or a recipient whose player is nil, every command
(recognized or not) performs at most the unknown-command log and makes no
player call; with a live player every command's trace is finite (at most the
control call plus one error log), so the callback always returns normally,
whatever errors the player reports. -/
theorem no_crash_on_any_command (cmd : Command) (v : Rat)
    (lg : LoggerInterface) (p : ControlledPlayer) :
    os_remote_command_callback none cmd v
      = (match cmd with
         | Command.UNKNOWN code =>
             [Effect.log (LogEntry.logPrintf ("unknown OS command received: " ++ toString code))]
         | _ => []) ∧
    os_remote_command_callback (some ⟨none, lg⟩) cmd v
      = (match cmd with
         | Command.UNKNOWN code =>
             [Effect.log (LogEntry.logPrintf ("unknown OS command received: " ++ toString code))]
         | _ => []) ∧
    (os_remote_command_callback (some ⟨some p, lg⟩) cmd v).length ≤ 2 := by
  refine ⟨?_, ?_, ?_⟩
  · cases cmd <;> rfl
  · cases cmd <;> rfl
  · cases cmd <;>
      simp [os_remote_command_callback, OnCommandPlay, OnCommandPause, OnCommandStop,
            OnCommandTogglePlayPause, OnCommandNextTrack, OnCommandPreviousTrack,
            OnCommandSeek] <;>
      exact errLog_length_le _ _

/-- Claim C10: for every player and logger, `RegisterMPMediaHandler` returns
a nil error; afterwards the recipient slot holds a fresh handler whose player
and logger fields are exactly the given arguments; and in the call's own
trace the slot assignment strictly precedes the native command-registration
call, so a command delivered after native registration cannot observe an
unset recipient. -/
theorem register_assigns_slot_before_native_registration (prev : Option MPMediaHandler)
    (p : ControlledPlayer) (lg : LoggerInterface) :
    (RegisterMPMediaHandler prev p lg).error = none ∧
    (RegisterMPMediaHandler prev p lg).mpMediaEventRecipient = some ⟨some p, lg⟩ ∧
    (RegisterMPMediaHandler prev p lg).callEffects
      = [Effect.setRecipient (some ⟨some p, lg⟩),
         Effect.nativeCall NativeCall.register_os_remote_commands] :=
  ⟨rfl, rfl, rfl⟩

end Remote
